import Mathlib

/-!
# Verification of the AudioSocket transport core

Shallow embedding of `src/transports/audiosocket/transport.py` and the packet
codec of `src/tests/mock_audiosocket_client.py`.  Bytes are `Nat` values below
256, byte strings are `List Nat`.  Python exceptions are modelled with
`Except String`; the receive loop, whose `try/except/finally` absorbs every
exception, is modelled as a total function.
-/

namespace AudioSocket

/-- AudioSocket packet type tags, from `transport.py` lines 48-51. -/
def AUDIOSOCKET_TYPE_TERMINATE : Nat := 0x00

def AUDIOSOCKET_TYPE_UUID : Nat := 0x01

def AUDIOSOCKET_TYPE_AUDIO : Nat := 0x10

def AUDIOSOCKET_TYPE_SILENCE : Nat := 0x11

/-- `struct.pack(">BH", t, len)`: one unsigned byte followed by a 16-bit
big-endian unsigned integer; `struct.error` when a field is out of range. -/
def structPackBH (t len : Nat) : Except String (List Nat) :=
  if t ≤ 255 ∧ len ≤ 65535 then
    Except.ok [t, len / 256, len % 256]
  else
    Except.error "struct.error: argument out of range"

/-- `build_packet` from `mock_audiosocket_client.py` lines 34-37: header
`struct.pack(">BH", packet_type, len(payload))` followed by the payload.
(`_build_audio_packet` in `transport.py` lines 430-441 is the same
construction with the type fixed to Audio.) -/
def build_packet (packet_type : Nat) (payload : List Nat) :
    Except String (List Nat) :=
  match structPackBH packet_type payload.length with
  | Except.ok header => Except.ok (header ++ payload)
  | Except.error e => Except.error e

/-- `parse_packet` from `mock_audiosocket_client.py` lines 40-46: returns
`(None, 0)` on fewer than 3 bytes, otherwise the tag byte and the 16-bit
big-endian length read from bytes 1-2. -/
def parse_packet (data : List Nat) : Option Nat × Nat :=
  if data.length < 3 then (none, 0)
  else (some (data.getD 0 0), data.getD 1 0 * 256 + data.getD 2 0)

/-! ## Resampler (`resample_audio`, `transport.py` lines 89-113) -/

/-- `np.frombuffer(audio, dtype=np.int16)`: reinterpret a byte string as
little-endian 16-bit signed samples; `ValueError` when the byte count is not
a multiple of 2 (checked by the caller's embedding before use). -/
def bytesToInt16 : List Nat → List Int
  | [] => []
  | [_] => []
  | lo :: hi :: rest =>
      let v : Nat := lo + 256 * hi
      (if v < 32768 then (v : Int) else (v : Int) - 65536) :: bytesToInt16 rest

/-- `np.ndarray.astype(np.int16)` on an integral value: wrap modulo 2^16 into
the signed 16-bit range (numpy converts out-of-range values modularly, it
does not saturate). -/
def npAstypeInt16 (v : Int) : Int :=
  (v + 32768) % 65536 - 32768

/-- `.tobytes()` on an int16 array: two little-endian bytes per sample. -/
def int16ToBytes : List Int → List Nat
  | [] => []
  | v :: rest =>
      let u : Nat := ((v + 65536) % 65536).toNat
      u % 256 :: u / 256 :: int16ToBytes rest

/-- Modelled from the spec: `scipy.signal.resample(x, num)` is the FFT-based
band-limited resampler of the external scipy library (not part of this
repository).  The embedding keeps its exact contract that the result has
exactly `num` samples; the sample values themselves are produced by
floating-point FFT interpolation which the embedding abstracts with a
nearest-index placeholder (no theorem below depends on these values). -/
def signalResample (x : List Int) (num : Nat) : List Int :=
  (List.range num).map fun i => x.getD (i * x.length / num) 0

/-- `resample_audio` from `transport.py` lines 89-113.  Equal rates: the input
is returned unchanged.  Otherwise the bytes are reinterpreted as int16
samples (`ValueError` on odd byte count), the target sample count is
`int(len(samples) * to_rate / from_rate)` — floor division, modelled here in
exact arithmetic (`ZeroDivisionError` when `from_rate` is 0) — and the
resampled values are cast back to int16 bytes. -/
def resample_audio (audio : List Nat) (from_rate to_rate : Nat) :
    Except String (List Nat) :=
  if from_rate = to_rate then Except.ok audio
  else if audio.length % 2 ≠ 0 then
    Except.error "ValueError: buffer size must be a multiple of element size"
  else if from_rate = 0 then
    Except.error "ZeroDivisionError: division by zero"
  else
    let samples := bytesToInt16 audio
    let num_samples := samples.length * to_rate / from_rate
    let resampled := signalResample samples num_samples
    Except.ok (int16ToBytes (resampled.map npAstypeInt16))

/-! ## Receive loop (`AudioSocketInputTransport._receive_packets`,
`transport.py` lines 261-321) -/

/-- Observable events of a session: the two lifecycle callbacks and the audio
frames pushed to the pipeline (`push_audio_frame` with the frame's audio
bytes and sample rate).  Call identifiers are the Unicode code points of the
decoded, stripped SessionId payload. -/
inductive Event where
  | connected (callId : List Nat)
  | disconnected (callId : List Nat)
  | audioFrame (audio : List Nat) (sampleRate : Nat)
deriving DecidableEq, Repr

/-- Strict UTF-8 decoding of a byte string into Unicode code points, as
performed by Python's `bytes.decode("utf-8")`: rejects stray continuation
bytes, overlong encodings (lead bytes `0xC0`/`0xC1`, and the range checks on
the decoded value for 3- and 4-byte forms), surrogates `U+D800`–`U+DFFF`,
code points above `U+10FFFF`, lead bytes `0xF5`–`0xFF`, and truncated
sequences; raises `UnicodeDecodeError` in each of these cases. -/
def utf8Decode : List Nat → Except String (List Nat)
  | [] => Except.ok []
  | b :: rest =>
      if b < 128 then
        match utf8Decode rest with
        | Except.ok cps => Except.ok (b :: cps)
        | Except.error e => Except.error e
      else if b < 194 then Except.error "UnicodeDecodeError"
      else if b < 224 then
        match rest with
        | b1 :: rest1 =>
            if 128 ≤ b1 ∧ b1 < 192 then
              match utf8Decode rest1 with
              | Except.ok cps =>
                  Except.ok (((b - 192) * 64 + (b1 - 128)) :: cps)
              | Except.error e => Except.error e
            else Except.error "UnicodeDecodeError"
        | [] => Except.error "UnicodeDecodeError"
      else if b < 240 then
        match rest with
        | b1 :: b2 :: rest1 =>
            if (128 ≤ b1 ∧ b1 < 192) ∧ (128 ≤ b2 ∧ b2 < 192) ∧
                2048 ≤ (b - 224) * 4096 + (b1 - 128) * 64 + (b2 - 128) ∧
                ¬(55296 ≤ (b - 224) * 4096 + (b1 - 128) * 64 + (b2 - 128) ∧
                  (b - 224) * 4096 + (b1 - 128) * 64 + (b2 - 128) ≤ 57343)
            then
              match utf8Decode rest1 with
              | Except.ok cps =>
                  Except.ok
                    (((b - 224) * 4096 + (b1 - 128) * 64 + (b2 - 128)) :: cps)
              | Except.error e => Except.error e
            else Except.error "UnicodeDecodeError"
        | _ => Except.error "UnicodeDecodeError"
      else if b < 245 then
        match rest with
        | b1 :: b2 :: b3 :: rest1 =>
            if (128 ≤ b1 ∧ b1 < 192) ∧ (128 ≤ b2 ∧ b2 < 192) ∧
                (128 ≤ b3 ∧ b3 < 192) ∧
                65536 ≤ (b - 240) * 262144 + (b1 - 128) * 4096 +
                  (b2 - 128) * 64 + (b3 - 128) ∧
                (b - 240) * 262144 + (b1 - 128) * 4096 +
                  (b2 - 128) * 64 + (b3 - 128) ≤ 1114111
            then
              match utf8Decode rest1 with
              | Except.ok cps =>
                  Except.ok (((b - 240) * 262144 + (b1 - 128) * 4096 +
                    (b2 - 128) * 64 + (b3 - 128)) :: cps)
              | Except.error e => Except.error e
            else Except.error "UnicodeDecodeError"
        | _ => Except.error "UnicodeDecodeError"
      else Except.error "UnicodeDecodeError"

/-- The code points Python's `str.strip()` (no argument) removes: those for
which `str.isspace()` holds — `U+0009`–`U+000D`, `U+001C`–`U+001F`,
`U+0020`, `U+0085`, `U+00A0`, `U+1680`, `U+2000`–`U+200A`, `U+2028`,
`U+2029`, `U+202F`, `U+205F`, `U+3000`. -/
def pyIsSpace (c : Nat) : Bool :=
  (9 ≤ c && c ≤ 13) || (28 ≤ c && c ≤ 31) || c = 32 || c = 133 ||
    c = 160 || c = 5760 || (8192 ≤ c && c ≤ 8202) || c = 8232 ||
    c = 8233 || c = 8239 || c = 8287 || c = 12288

/-- Python's `str.strip()` on a code-point string: removes leading and
trailing whitespace code points. -/
def pyStrip (s : List Nat) : List Nat :=
  ((s.dropWhile pyIsSpace).reverse.dropWhile pyIsSpace).reverse

/-- `payload.decode("utf-8").strip()` on a byte payload: strict UTF-8
decoding (which can raise `UnicodeDecodeError`) followed by Unicode
whitespace stripping. -/
def decodeStrip (s : List Nat) : Except String (List Nat) :=
  match utf8Decode s with
  | Except.ok cps => Except.ok (pyStrip cps)
  | Except.error e => Except.error e

/-- Python truthiness of `self._call_uuid`: `None` and the empty string are
falsy. -/
def uuidTruthy : Option (List Nat) → Bool
  | some s => !s.isEmpty
  | none => false

/-- `_close_client_connection` (`transport.py` lines 245-259) restricted to
the call-uuid/callback part: fires `on_client_disconnected(call_uuid)` and
clears the uuid only when `if self._call_uuid:` is truthy (a `None` or
empty-string uuid fires nothing and, in the empty-string case, is not
cleared). -/
def closeClient (u : Option (List Nat)) : List Event × Option (List Nat) :=
  if uuidTruthy u then ([Event.disconnected (u.getD [])], none) else ([], u)

/-- `_receive_packets` (`transport.py` lines 261-300) with its
`_handle_audio_packet` helper (lines 302-321), as a function from the byte
stream delivered by the peer and the current `_call_uuid` to the emitted
events and the final `_call_uuid`.  Each iteration reads a 3-byte header and
then exactly the declared payload length; a short read raises
`IncompleteReadError`, and any exception (including the `ValueError` a
malformed audio payload raises inside `resample_audio`) is caught by the
`try/except`, so every exit path runs the `finally` cleanup
(`closeClient`).  A Terminate tag breaks out of the loop; a UUID tag decodes
the payload as UTF-8 (a `UnicodeDecodeError` raised by an undecodable
payload is caught like any other exception, closing the session with no
`connected` fired), stores the stripped identifier and fires
`on_client_connected`; an Audio tag resamples
`asterisk_sample_rate → pipeline_sample_rate` and pushes an input frame;
Silence and unknown tags fall through with no effect. -/
def receivePackets (astRate pipeRate : Nat) :
    List Nat → Option (List Nat) → List Event × Option (List Nat)
  | [], u => closeClient u
  | t :: rest1, u =>
      if rest1.length < 2 then closeClient u
      else if (rest1.drop 2).length < rest1.getD 0 0 * 256 + rest1.getD 1 0
      then closeClient u
      else if t = AUDIOSOCKET_TYPE_TERMINATE then closeClient u
      else if t = AUDIOSOCKET_TYPE_UUID then
        match decodeStrip
            ((rest1.drop 2).take (rest1.getD 0 0 * 256 + rest1.getD 1 0)) with
        | Except.error _ => closeClient u
        | Except.ok uid =>
            (Event.connected uid ::
              (receivePackets astRate pipeRate
                ((rest1.drop 2).drop (rest1.getD 0 0 * 256 + rest1.getD 1 0))
                (some uid)).1,
             (receivePackets astRate pipeRate
                ((rest1.drop 2).drop (rest1.getD 0 0 * 256 + rest1.getD 1 0))
                (some uid)).2)
      else if t = AUDIOSOCKET_TYPE_AUDIO then
        match resample_audio
            ((rest1.drop 2).take (rest1.getD 0 0 * 256 + rest1.getD 1 0))
            astRate pipeRate with
        | Except.error _ => closeClient u
        | Except.ok resampled =>
            (Event.audioFrame resampled pipeRate ::
              (receivePackets astRate pipeRate
                ((rest1.drop 2).drop (rest1.getD 0 0 * 256 + rest1.getD 1 0))
                u).1,
             (receivePackets astRate pipeRate
                ((rest1.drop 2).drop (rest1.getD 0 0 * 256 + rest1.getD 1 0))
                u).2)
      else
        receivePackets astRate pipeRate
          ((rest1.drop 2).drop (rest1.getD 0 0 * 256 + rest1.getD 1 0)) u
termination_by stream _ => stream.length
decreasing_by
  all_goals simp_all [List.length_drop]; omega

/-! ## Connection server (`_client_handler` / `_close_client_connection`,
`transport.py` lines 227-259) -/

/-- The connection-related fields of `AudioSocketInputTransport`: the single
`_reader`/`_writer` slot pair (connections identified by a number) and
`_call_uuid`.  The transport structurally holds at most one connection. -/
structure ServerState where
  reader : Option Nat
  writer : Option Nat
  callUuid : Option (List Nat)
deriving DecidableEq, Repr

/-- `_close_client_connection` (`transport.py` lines 245-259) in full:
closes `_writer` (reporting which connection was closed), clears `_writer`
and `_reader`, and fires `on_client_disconnected(call_uuid)` once iff
`_call_uuid` is truthy, clearing the uuid in that case only.  Result:
(new state, events fired, connection ids closed). -/
def closeClientConnection (st : ServerState) :
    ServerState × List Event × List Nat :=
  let closed := match st.writer with
    | some w => [w]
    | none => []
  let r := closeClient st.callUuid
  (⟨none, none, r.2⟩, r.1, closed)

/-- `_client_handler` (`transport.py` lines 227-243) on arrival of a new
connection `conn`: when `self._reader is not None`, the previous connection
is closed via `_close_client_connection` first; then `_reader`/`_writer`
are set to the new connection (after which the receive loop is started). -/
def clientHandler (st : ServerState) (conn : Nat) :
    ServerState × List Event × List Nat :=
  if st.reader.isSome then
    let r := closeClientConnection st
    (⟨some conn, some conn, r.1.callUuid⟩, r.2.1, r.2.2)
  else
    (⟨some conn, some conn, st.callUuid⟩, [], [])

/-! ## Output transport (`AudioSocketOutputTransport`, `transport.py`
lines 324-454) and facade callbacks (lines 528-545) -/

/-- `_build_audio_packet` (`transport.py` lines 430-441):
`struct.pack(">BH", AUDIOSOCKET_TYPE_AUDIO, len(audio_data))` followed by
the payload; `struct.pack` raises when the length exceeds 65535. -/
def buildAudioPacket (audio_data : List Nat) : Except String (List Nat) :=
  match structPackBH AUDIOSOCKET_TYPE_AUDIO audio_data.length with
  | Except.ok header => Except.ok (header ++ audio_data)
  | Except.error e => Except.error e

/-- `write_audio_frame` (`transport.py` lines 397-428): with no `_writer`
attached it returns `False` immediately; otherwise it resamples
`pipeline_sample_rate → asterisk_sample_rate`, builds one audio packet and
writes it, returning `True`; any exception inside the `try` (resampling or
packet building) is caught and `False` returned.  Result: (return value,
list of (connection, bytes) socket writes performed). -/
def writeAudioFrame (writer : Option Nat) (frameAudio : List Nat)
    (pipeRate astRate : Nat) : Bool × List (Nat × List Nat) :=
  match writer with
  | none => (false, [])
  | some w =>
      match resample_audio frameAudio pipeRate astRate with
      | Except.error _ => (false, [])
      | Except.ok resampled =>
          match buildAudioPacket resampled with
          | Except.error _ => (false, [])
          | Except.ok packet => (true, [(w, packet)])

/-- `AudioSocketTransport._on_client_disconnected` (`transport.py` lines
538-545): clears the output transport's writer via `set_writer(None)`. -/
def onClientDisconnected (_outputWriter : Option Nat) : Option Nat :=
  none

/-! ## Wire-frame helpers for stating stream-level theorems -/

/-- The bytes of one well-formed wire frame `[t][len hi][len lo][payload]`. -/
def frameBytes (t : Nat) (payload : List Nat) : List Nat :=
  t :: payload.length / 256 :: payload.length % 256 :: payload

/-- The byte stream of a sequence of wire frames, given as
(type, payload) pairs. -/
def framesBytes : List (Nat × List Nat) → List Nat
  | [] => []
  | f :: fs => frameBytes f.1 f.2 ++ framesBytes fs

/-- Number of `connected` notifications in an event trace. -/
def connectedCount (evs : List Event) : Nat :=
  evs.countP fun e => match e with
    | Event.connected _ => true
    | _ => false

/-- Number of `disconnected` notifications in an event trace. -/
def disconnectedCount (evs : List Event) : Nat :=
  evs.countP fun e => match e with
    | Event.disconnected _ => true
    | _ => false

/-- Number of audio frames pushed to the pipeline in an event trace. -/
def audioFrameCount (evs : List Event) : Nat :=
  evs.countP fun e => match e with
    | Event.audioFrame _ _ => true
    | _ => false

/-- A byte tail on which the peer closed mid-frame: either fewer than 3
header bytes remain, or a full header declares more payload bytes than
follow. -/
def TruncatedTail (t : List Nat) : Prop :=
  t.length < 3 ∨
    ∃ b hi lo rest, t = b :: hi :: lo :: rest ∧ rest.length < hi * 256 + lo

/-! ## Helper lemmas -/

/-- `bytesToInt16` yields one sample per byte pair. -/
theorem bytesToInt16_length (audio : List Nat) :
    (bytesToInt16 audio).length = audio.length / 2 := by
  induction audio using bytesToInt16.induct with
  | case1 => simp [bytesToInt16]
  | case2 _ => simp [bytesToInt16]
  | case3 lo hi rest ih =>
      simp only [bytesToInt16, List.length_cons, ih]
      omega

/-- `int16ToBytes` yields two bytes per sample. -/
theorem int16ToBytes_length (xs : List Int) :
    (int16ToBytes xs).length = 2 * xs.length := by
  induction xs with
  | nil => simp [int16ToBytes]
  | cons v rest ih =>
      simp only [int16ToBytes, List.length_cons, ih]
      omega

/-- `signalResample` returns exactly `num` samples. -/
theorem signalResample_length (x : List Int) (num : Nat) :
    (signalResample x num).length = num := by
  simp [signalResample]

/-- The output of `resample_audio` on distinct nonzero rates and even input
length, in terms of its stages. -/
theorem resample_audio_eq (audio : List Nat) (from_rate to_rate : Nat)
    (hne : from_rate ≠ to_rate) (hz : from_rate ≠ 0)
    (heven : audio.length % 2 = 0) :
    resample_audio audio from_rate to_rate =
      Except.ok (int16ToBytes ((signalResample (bytesToInt16 audio)
        (audio.length / 2 * to_rate / from_rate)).map npAstypeInt16)) := by
  simp [resample_audio, hne, hz, heven, bytesToInt16_length]

/-- One iteration of the receive loop on a well-formed wire frame
`[t][len hi][len lo][payload]` followed by `rest`. -/
theorem receivePackets_step (a p t : Nat) (payload rest : List Nat)
    (u : Option (List Nat)) :
    receivePackets a p
      (t :: payload.length / 256 :: payload.length % 256 :: (payload ++ rest))
      u =
      if t = AUDIOSOCKET_TYPE_TERMINATE then closeClient u
      else if t = AUDIOSOCKET_TYPE_UUID then
        match decodeStrip payload with
        | Except.error _ => closeClient u
        | Except.ok uid =>
            let r := receivePackets a p rest (some uid)
            (Event.connected uid :: r.1, r.2)
      else if t = AUDIOSOCKET_TYPE_AUDIO then
        match resample_audio payload a p with
        | Except.error _ => closeClient u
        | Except.ok resampled =>
            let r := receivePackets a p rest u
            (Event.audioFrame resampled p :: r.1, r.2)
      else receivePackets a p rest u := by
  conv_lhs => rw [receivePackets]
  simp only [List.length_cons, List.getD_cons_zero, List.getD_cons_succ,
    List.drop_succ_cons, List.drop_zero, List.length_append]
  rw [if_neg (by omega)]
  have hL : payload.length / 256 * 256 + payload.length % 256 =
      payload.length := by omega
  rw [hL]
  rw [if_neg (by omega)]
  rw [List.take_left, List.drop_left]

/-- A frame followed by further bytes, as the cons-shape the step lemma
expects. -/
theorem frameBytes_append (t : Nat) (payload rest : List Nat) :
    frameBytes t payload ++ rest =
      t :: payload.length / 256 :: payload.length % 256 ::
        (payload ++ rest) := by
  simp [frameBytes]

/-- On a stream on which the peer closed mid-frame, the receive loop raises
`IncompleteReadError` internally, catches it, and runs the cleanup. -/
theorem receivePackets_truncated (a p : Nat) (tail : List Nat)
    (u : Option (List Nat)) (h : TruncatedTail tail) :
    receivePackets a p tail u = closeClient u := by
  rcases h with hshort | ⟨b, hi, lo, rest, rfl, hlt⟩
  · rcases tail with _ | ⟨t, _ | ⟨x, _ | ⟨y, r⟩⟩⟩
    · rw [receivePackets]
    · rw [receivePackets]; simp
    · rw [receivePackets]; simp
    · simp only [List.length_cons] at hshort
      omega
  · rw [receivePackets]
    simp only [List.length_cons, List.getD_cons_zero, List.getD_cons_succ,
      List.drop_succ_cons, List.drop_zero]
    rw [if_neg (by omega), if_pos (by omega)]

/-- The cleanup fires at most one `disconnected` notification. -/
theorem disconnectedCount_closeClient (u : Option (List Nat)) :
    disconnectedCount (closeClient u).1 ≤ 1 := by
  unfold closeClient
  split <;> simp [disconnectedCount]

/-- The cleanup fires nothing when the uuid is not truthy. -/
theorem closeClient_not_truthy (u : Option (List Nat))
    (h : uuidTruthy u = false) : (closeClient u).1 = [] := by
  simp [closeClient, h]

@[simp]
theorem disconnectedCount_nil : disconnectedCount [] = 0 := rfl

@[simp]
theorem disconnectedCount_cons_connected (c : List Nat) (l : List Event) :
    disconnectedCount (Event.connected c :: l) = disconnectedCount l := by
  simp [disconnectedCount, List.countP_cons]

@[simp]
theorem disconnectedCount_cons_audioFrame (x : List Nat) (r : Nat)
    (l : List Event) :
    disconnectedCount (Event.audioFrame x r :: l) = disconnectedCount l := by
  simp [disconnectedCount, List.countP_cons]

@[simp]
theorem disconnectedCount_cons_disconnected (c : List Nat) (l : List Event) :
    disconnectedCount (Event.disconnected c :: l) =
      disconnectedCount l + 1 := by
  simp [disconnectedCount, List.countP_cons]

@[simp]
theorem connectedCount_nil : connectedCount [] = 0 := rfl

@[simp]
theorem connectedCount_cons_connected (c : List Nat) (l : List Event) :
    connectedCount (Event.connected c :: l) = connectedCount l + 1 := by
  simp [connectedCount, List.countP_cons]

@[simp]
theorem connectedCount_cons_audioFrame (x : List Nat) (r : Nat)
    (l : List Event) :
    connectedCount (Event.audioFrame x r :: l) = connectedCount l := by
  simp [connectedCount, List.countP_cons]

@[simp]
theorem connectedCount_cons_disconnected (c : List Nat) (l : List Event) :
    connectedCount (Event.disconnected c :: l) = connectedCount l := by
  simp [connectedCount, List.countP_cons]

/-- Within one run of the receive loop, at most one `disconnected`
notification fires: the loop body emits only `connected` and audio-frame
events, and only the single final cleanup can emit `disconnected`. -/
theorem receivePackets_disconnected_le_one (a p : Nat) (s : List Nat)
    (u : Option (List Nat)) :
    disconnectedCount (receivePackets a p s u).1 ≤ 1 := by
  induction s, u using receivePackets.induct a p with
  | case1 u =>
      rw [receivePackets]
      exact disconnectedCount_closeClient u
  | case2 t rest1 u h =>
      rw [receivePackets, if_pos h]
      exact disconnectedCount_closeClient u
  | case3 t rest1 u h1 h2 =>
      rw [receivePackets, if_neg h1, if_pos h2]
      exact disconnectedCount_closeClient u
  | case4 rest1 u h1 h2 =>
      rw [receivePackets, if_neg h1, if_neg h2, if_pos rfl]
      exact disconnectedCount_closeClient u
  | case5 rest1 u h1 h2 e heq hne =>
      rw [receivePackets, if_neg h1, if_neg h2, if_neg hne, if_pos rfl, heq]
      exact disconnectedCount_closeClient u
  | case6 rest1 u h1 h2 uid heq hne ih =>
      rw [receivePackets, if_neg h1, if_neg h2, if_neg hne, if_pos rfl, heq]
      simpa using ih
  | case7 rest1 u h1 h2 e heq hne1 hne2 =>
      rw [receivePackets, if_neg h1, if_neg h2, if_neg hne1, if_neg hne2,
        if_pos rfl, heq]
      exact disconnectedCount_closeClient u
  | case8 rest1 u h1 h2 resampled heq hne1 hne2 ih =>
      rw [receivePackets, if_neg h1, if_neg h2, if_neg hne1, if_neg hne2,
        if_pos rfl, heq]
      simpa using ih
  | case9 t rest1 u h1 h2 hne1 hne2 hne3 ih =>
      rw [receivePackets, if_neg h1, if_neg h2, if_neg hne1, if_neg hne2,
        if_neg hne3]
      exact ih

/-- If the uuid is not truthy on entry and no `connected` notification fires
during a run of the receive loop, then no `disconnected` notification fires
either: the cleanup's guard `if self._call_uuid:` can only be satisfied
after a SessionId packet set the uuid (firing `connected`). -/
theorem receivePackets_disconnected_zero (a p : Nat) (s : List Nat)
    (u : Option (List Nat)) (hu : uuidTruthy u = false)
    (hc : connectedCount (receivePackets a p s u).1 = 0) :
    disconnectedCount (receivePackets a p s u).1 = 0 := by
  induction s, u using receivePackets.induct a p with
  | case1 u =>
      rw [receivePackets] at hc ⊢
      simp [closeClient_not_truthy u hu]
  | case2 t rest1 u h =>
      rw [receivePackets, if_pos h] at hc ⊢
      simp [closeClient_not_truthy u hu]
  | case3 t rest1 u h1 h2 =>
      rw [receivePackets, if_neg h1, if_pos h2] at hc ⊢
      simp [closeClient_not_truthy u hu]
  | case4 rest1 u h1 h2 =>
      rw [receivePackets, if_neg h1, if_neg h2, if_pos rfl] at hc ⊢
      simp [closeClient_not_truthy u hu]
  | case5 rest1 u h1 h2 e heq hne =>
      rw [receivePackets, if_neg h1, if_neg h2, if_neg hne, if_pos rfl,
        heq] at hc ⊢
      simp [closeClient_not_truthy u hu]
  | case6 rest1 u h1 h2 uid heq hne ih =>
      rw [receivePackets, if_neg h1, if_neg h2, if_neg hne, if_pos rfl,
        heq] at hc
      simp at hc
  | case7 rest1 u h1 h2 e heq hne1 hne2 =>
      rw [receivePackets, if_neg h1, if_neg h2, if_neg hne1, if_neg hne2,
        if_pos rfl, heq] at hc ⊢
      simp [closeClient_not_truthy u hu]
  | case8 rest1 u h1 h2 resampled heq hne1 hne2 ih =>
      rw [receivePackets, if_neg h1, if_neg h2, if_neg hne1, if_neg hne2,
        if_pos rfl, heq] at hc ⊢
      simp only [disconnectedCount_cons_audioFrame]
      simp only [connectedCount_cons_audioFrame] at hc
      exact ih hu hc
  | case9 t rest1 u h1 h2 hne1 hne2 hne3 ih =>
      rw [receivePackets, if_neg h1, if_neg h2, if_neg hne1, if_neg hne2,
        if_neg hne3] at hc ⊢
      exact ih hu hc

/-! ## Claim theorems -/

/-- C1: Codec round-trip.  For every type tag (a byte) and every payload
with `len(payload) ≤ 65535`, encoding succeeds, decoding the first 3 bytes
of the encoded packet yields `(type, len(payload))`, and the bytes following
the 3-byte header equal the payload. -/
theorem codec_roundtrip (t : Nat) (payload : List Nat)
    (ht : t ≤ 255) (hlen : payload.length ≤ 65535) :
    ∃ pkt, build_packet t payload = Except.ok pkt ∧
      parse_packet (pkt.take 3) = (some t, payload.length) ∧
      pkt.drop 3 = payload := by
  refine ⟨[t, payload.length / 256, payload.length % 256] ++ payload, ?_, ?_, ?_⟩
  · simp [build_packet, structPackBH, ht, hlen]
  · have h3 : ([t, payload.length / 256, payload.length % 256] ++
        payload).take 3 = [t, payload.length / 256, payload.length % 256] := by
      simp
    rw [h3]
    simp [parse_packet, List.getD]
    omega
  · simp

/-- C1 witness: the round-trip at a concrete packet. -/
theorem codec_roundtrip_witness :
    ∃ pkt, build_packet 16 [7, 8] = Except.ok pkt ∧
      parse_packet (pkt.take 3) = (some 16, 2) ∧
      pkt.drop 3 = [7, 8] :=
  codec_roundtrip 16 [7, 8] (by norm_num) (by simp)

/-- C2 counterexample: an Audio packet (`0x10`, payload `[0, 0]`) arriving
before any SessionId packet (`_call_uuid = none`, i.e. the session is not
`Active`) is **not** discarded: the receive loop resamples it and pushes an
audio frame to the pipeline. -/
theorem audio_before_identity_not_discarded :
    receivePackets 8000 16000 [16, 0, 2, 0, 0] none =
      ([Event.audioFrame [0, 0, 0, 0] 16000], none) := by
  simp [receivePackets, resample_audio, bytesToInt16, signalResample,
    npAstypeInt16, int16ToBytes, closeClient, uuidTruthy,
    AUDIOSOCKET_TYPE_TERMINATE, AUDIOSOCKET_TYPE_UUID,
    AUDIOSOCKET_TYPE_AUDIO, List.range_succ]

/-- C2 amended: for every Audio packet, in **every** session state (in
particular before a SessionId packet has been received), the receive loop
resamples the payload and produces an audio frame for the pipeline; no state
transition occurs (the `_call_uuid` is passed through unchanged). -/
theorem audio_packet_always_processed (a p : Nat) (payload rest : List Nat)
    (u : Option (List Nat)) (resampled : List Nat)
    (h : resample_audio payload a p = Except.ok resampled) :
    receivePackets a p (frameBytes AUDIOSOCKET_TYPE_AUDIO payload ++ rest) u =
      (Event.audioFrame resampled p ::
        (receivePackets a p rest u).1, (receivePackets a p rest u).2) := by
  rw [frameBytes_append, receivePackets_step]
  simp [AUDIOSOCKET_TYPE_TERMINATE, AUDIOSOCKET_TYPE_UUID,
    AUDIOSOCKET_TYPE_AUDIO, h]

/-- C2 amended witness: the amended theorem at a concrete audio packet
received while `_call_uuid = none`. -/
theorem audio_packet_always_processed_witness :
    receivePackets 8000 16000
        (frameBytes AUDIOSOCKET_TYPE_AUDIO [0, 0] ++ []) none =
      (Event.audioFrame [0, 0, 0, 0] 16000 ::
        (receivePackets 8000 16000 [] none).1,
       (receivePackets 8000 16000 [] none).2) :=
  audio_packet_always_processed 8000 16000 [0, 0] [] none [0, 0, 0, 0]
    (by simp [resample_audio, bytesToInt16, signalResample, npAstypeInt16,
      int16ToBytes, List.range_succ])

/-- C3: Single active session.  The transport state holds a single
reader/writer slot, so at most one live session exists structurally; when a
new connection is accepted while a prior session exists (reader and writer
attached), the prior connection is forcibly closed before the new one is
installed, and an eviction of a session that never completed identity
exchange (`_call_uuid = none`) fires no `disconnected` notification. -/
theorem single_session_eviction (st : ServerState) (conn r w : Nat)
    (hr : st.reader = some r) (hw : st.writer = some w) :
    (clientHandler st conn).1.reader = some conn ∧
    (clientHandler st conn).1.writer = some conn ∧
    (clientHandler st conn).2.2 = [w] ∧
    (st.callUuid = none → (clientHandler st conn).2.1 = []) := by
  refine ⟨?_, ?_, ?_, ?_⟩ <;>
    simp [clientHandler, closeClientConnection, hr, hw]
  intro hu
  simp [hu, closeClient, uuidTruthy]

/-- C3 witness: eviction of a concrete identity-less session by connection 2. -/
theorem single_session_eviction_witness :
    (clientHandler ⟨some 1, some 1, none⟩ 2).1.reader = some 2 ∧
    (clientHandler ⟨some 1, some 1, none⟩ 2).1.writer = some 2 ∧
    (clientHandler ⟨some 1, some 1, none⟩ 2).2.2 = [1] ∧
    ((⟨some 1, some 1, none⟩ : ServerState).callUuid = none →
      (clientHandler ⟨some 1, some 1, none⟩ 2).2.1 = []) :=
  single_session_eviction ⟨some 1, some 1, none⟩ 2 1 1 rfl rfl

/-- C4 counterexample: a session delivering `SessionId "a"`, then a
SessionId with empty payload, then Terminate observes **two** `connected`
notifications (not exactly one per session) and **zero** `disconnected`
notifications although `connected` had fired (the empty stripped identifier
makes the cleanup guard `if self._call_uuid:` falsy). -/
theorem connected_twice_disconnected_never :
    receivePackets 8000 16000 [1, 0, 1, 97, 1, 0, 0, 0, 0, 0] none =
      ([Event.connected [97], Event.connected []], some []) := by
  have h97 : decodeStrip [97] = Except.ok [97] := rfl
  have hemp : decodeStrip [] = Except.ok [] := rfl
  simp [receivePackets, h97, hemp, closeClient, uuidTruthy,
    AUDIOSOCKET_TYPE_TERMINATE, AUDIOSOCKET_TYPE_UUID,
    AUDIOSOCKET_TYPE_AUDIO]

/-- C4 amended: `connected` fires once per SessionId packet whose payload
decodes as UTF-8 (so a session may observe several `connected`
notifications, and none before a SessionId; an undecodable payload raises
`UnicodeDecodeError`, closing the session with no `connected`);
`disconnected` fires at most once per session, and never fires in a session
in which `connected` never fired.  (It can fail to fire even after
`connected`, when the last SessionId identifier strips to the empty
string.) -/
theorem session_notifications (a p : Nat) :
    (∀ s : List Nat,
      disconnectedCount (receivePackets a p s none).1 ≤ 1 ∧
      (connectedCount (receivePackets a p s none).1 = 0 →
        disconnectedCount (receivePackets a p s none).1 = 0)) ∧
    (∀ (payload rest : List Nat) (u : Option (List Nat)) (uid : List Nat),
      decodeStrip payload = Except.ok uid →
      receivePackets a p
          (frameBytes AUDIOSOCKET_TYPE_UUID payload ++ rest) u =
        (Event.connected uid :: (receivePackets a p rest (some uid)).1,
         (receivePackets a p rest (some uid)).2)) ∧
    (∀ (payload rest : List Nat) (u : Option (List Nat)) (e : String),
      decodeStrip payload = Except.error e →
      receivePackets a p
          (frameBytes AUDIOSOCKET_TYPE_UUID payload ++ rest) u =
        closeClient u) := by
  refine ⟨?_, ?_, ?_⟩
  · intro s
    exact ⟨receivePackets_disconnected_le_one a p s none,
      receivePackets_disconnected_zero a p s none rfl⟩
  · intro payload rest u uid h
    rw [frameBytes_append, receivePackets_step]
    simp [AUDIOSOCKET_TYPE_TERMINATE, AUDIOSOCKET_TYPE_UUID, h]
  · intro payload rest u e h
    rw [frameBytes_append, receivePackets_step]
    simp [AUDIOSOCKET_TYPE_TERMINATE, AUDIOSOCKET_TYPE_UUID, h]

/-- C4 amended witness: the counting part at the concrete stream `[0,0,0]`
(whose `connected` count is 0), the notification part at a concrete
SessionId packet `b"a"`, and the decode-failure part at the undecodable
SessionId payload `b"\xff"`. -/
theorem session_notifications_witness :
    disconnectedCount (receivePackets 8000 16000 [0, 0, 0] none).1 = 0 ∧
    receivePackets 8000 16000
        (frameBytes AUDIOSOCKET_TYPE_UUID [97] ++ []) none =
      (Event.connected [97] ::
        (receivePackets 8000 16000 [] (some [97])).1,
       (receivePackets 8000 16000 [] (some [97])).2) ∧
    receivePackets 8000 16000
        (frameBytes AUDIOSOCKET_TYPE_UUID [255] ++ []) none =
      closeClient none :=
  ⟨((session_notifications 8000 16000).1 [0, 0, 0]).2
      (by simp [receivePackets, closeClient, uuidTruthy,
        AUDIOSOCKET_TYPE_TERMINATE]),
   (session_notifications 8000 16000).2.1 [97] [] none [97] (by rfl),
   (session_notifications 8000 16000).2.2 [255] [] none
     "UnicodeDecodeError" (by rfl)⟩

/-- C5 counterexample: a 1-sample input resampled from rate 3 to rate 2
yields `int(1 * 2 / 3) = 0` output samples, while the claimed
`round(1 * 2 / 3) = 1`. -/
theorem resample_count_not_round :
    resample_audio [0, 0] 3 2 = Except.ok [] ∧
    round ((1 * 2 : ℚ) / 3) = 1 := by
  constructor
  · simp [resample_audio, bytesToInt16, signalResample, int16ToBytes]
  · norm_num [round_eq]

/-- C5 amended: `resample(x, r, r) = x` for every rate and every byte input;
for distinct rates (with a nonzero source rate, on even-length input) the
output sample count is the **truncation** `int(n * to_rate / from_rate)` =
`⌊n * to_rate / from_rate⌋` of the exact ratio, not its rounding. -/
theorem resample_identity_and_count :
    (∀ (audio : List Nat) (r : Nat),
      resample_audio audio r r = Except.ok audio) ∧
    (∀ (audio : List Nat) (from_rate to_rate : Nat),
      from_rate ≠ to_rate → from_rate ≠ 0 → audio.length % 2 = 0 →
      ∃ out, resample_audio audio from_rate to_rate = Except.ok out ∧
        out.length = 2 * (audio.length / 2 * to_rate / from_rate)) := by
  constructor
  · intro audio r
    simp [resample_audio]
  · intro audio fr tr h1 h2 h3
    refine ⟨_, resample_audio_eq audio fr tr h1 h2 h3, ?_⟩
    simp [int16ToBytes_length, signalResample_length]

/-- C5 amended witness: identity at `[5]` and the output-count law at a
concrete 1-sample 8 kHz → 16 kHz conversion. -/
theorem resample_identity_and_count_witness :
    resample_audio [5] 8000 8000 = Except.ok [5] ∧
    ∃ out, resample_audio [0, 0] 8000 16000 = Except.ok out ∧
      out.length = 2 * (([0, 0] : List Nat).length / 2 * 16000 / 8000) :=
  ⟨resample_identity_and_count.1 [5] 8000,
   resample_identity_and_count.2 [0, 0] 8000 16000 (by norm_num)
     (by norm_num) (by simp)⟩

/-- C7: Write-after-disconnect is inert.  With no write handle attached —
in particular after the facade's `_on_client_disconnected` cleared it via
`set_writer(None)` — `write_audio_frame` returns `False`, performs no
socket operation, and (being a total function of the embedding) raises no
exception. -/
theorem write_after_disconnect_inert :
    (∀ (frameAudio : List Nat) (pipeRate astRate : Nat),
      writeAudioFrame none frameAudio pipeRate astRate = (false, [])) ∧
    (∀ (w : Option Nat) (frameAudio : List Nat) (pipeRate astRate : Nat),
      writeAudioFrame (onClientDisconnected w) frameAudio pipeRate astRate =
        (false, [])) :=
  ⟨fun _ _ _ => rfl, fun _ _ _ _ => rfl⟩

/-- The receive loop on a lone Terminate frame runs exactly the session
cleanup. -/
theorem receivePackets_terminate_frame (a p : Nat) (u : Option (List Nat)) :
    receivePackets a p (frameBytes AUDIOSOCKET_TYPE_TERMINATE []) u =
      closeClient u := by
  have h := receivePackets_step a p AUDIOSOCKET_TYPE_TERMINATE [] [] u
  simpa [frameBytes] using h

/-- C8: a peer that closes mid-frame (fewer than 3 header bytes, or fewer
payload bytes than the declared length) after any prefix of well-formed
frames makes the receive loop behave exactly as if a Terminate packet had
been received: the `IncompleteReadError` is caught inside the loop (the
embedding is a total function — nothing propagates out), the session-close
cleanup runs, and `disconnected` fires iff `connected` had fired, exactly
as on the Terminate path. -/
theorem truncated_read_acts_as_terminate (a p : Nat)
    (fs : List (Nat × List Nat)) (tail : List Nat) (u : Option (List Nat))
    (htail : TruncatedTail tail) :
    receivePackets a p (framesBytes fs ++ tail) u =
      receivePackets a p
        (framesBytes fs ++ frameBytes AUDIOSOCKET_TYPE_TERMINATE []) u := by
  induction fs generalizing u with
  | nil =>
      simp only [framesBytes, List.nil_append]
      rw [receivePackets_truncated a p tail u htail,
        receivePackets_terminate_frame]
  | cons f fs ih =>
      obtain ⟨t, pl⟩ := f
      simp only [framesBytes, List.append_assoc]
      rw [frameBytes_append, frameBytes_append, receivePackets_step,
        receivePackets_step]
      split_ifs
      · rfl
      · cases h : decodeStrip pl with
        | error e => rfl
        | ok uid => simp only [ih]
      · cases h : resample_audio pl a p with
        | error e => rfl
        | ok rs => simp only [ih]
      · exact ih u

/-- C8 witness: after a clean SessionId frame, a header declaring 5 payload
bytes followed by only 1 byte closes the session exactly as Terminate
would. -/
theorem truncated_read_acts_as_terminate_witness :
    receivePackets 8000 16000
        (framesBytes [(1, [97])] ++ [16, 0, 5, 1]) none =
      receivePackets 8000 16000
        (framesBytes [(1, [97])] ++
          frameBytes AUDIOSOCKET_TYPE_TERMINATE []) none :=
  truncated_read_acts_as_terminate 8000 16000 [(1, [97])] [16, 0, 5, 1] none
    (Or.inr ⟨16, 0, 5, [1], rfl, by norm_num⟩)

/-- When packet building fails, `write_audio_frame` catches the exception
and returns `False` with no socket write. -/
theorem writeAudioFrame_build_error (w : Nat) (audio resampled : List Nat)
    (pipeRate astRate : Nat) (e : String)
    (hr : resample_audio audio pipeRate astRate = Except.ok resampled)
    (hb : buildAudioPacket resampled = Except.error e) :
    writeAudioFrame (some w) audio pipeRate astRate = (false, []) := by
  simp only [writeAudioFrame, hr, hb]

/-- C9 counterexample: a 65536-byte outbound payload (with equal configured
rates, so resampling is the identity) is **not** chunked into multiple wire
frames: `struct.pack` raises inside `_build_audio_packet`, the exception is
caught, and `write_audio_frame` returns `False` having emitted zero
frames. -/
theorem oversized_payload_not_chunked :
    writeAudioFrame (some 0) (List.replicate 65536 0) 8000 8000 =
      (false, []) := by
  have hr : resample_audio (List.replicate 65536 0) 8000 8000 =
      Except.ok (List.replicate 65536 0) := by
    rw [resample_audio, if_pos rfl]
  have hb : buildAudioPacket (List.replicate 65536 0) =
      Except.error "struct.error: argument out of range" := by
    rw [buildAudioPacket, structPackBH,
      if_neg fun hc => absurd hc.2 (by rw [List.length_replicate]; omega)]
  exact writeAudioFrame_build_error 0 _ _ 8000 8000 _ hr hb

/-- C9 amended: payloads longer than 65535 bytes are not chunked by the
sender; `_build_audio_packet` fails with `struct.error`, `write_audio_frame`
catches the exception and returns `False`, and no bytes are written to the
socket. -/
theorem oversized_payload_write_fails (w : Nat) (frameAudio : List Nat)
    (pipeRate astRate : Nat) (resampled : List Nat)
    (h : resample_audio frameAudio pipeRate astRate = Except.ok resampled)
    (hlen : 65535 < resampled.length) :
    buildAudioPacket resampled =
      Except.error "struct.error: argument out of range" ∧
    writeAudioFrame (some w) frameAudio pipeRate astRate = (false, []) := by
  have hb : buildAudioPacket resampled =
      Except.error "struct.error: argument out of range" := by
    rw [buildAudioPacket, structPackBH, if_neg (by omega)]
  exact ⟨hb, writeAudioFrame_build_error w _ _ _ _ _ h hb⟩

/-- C9 amended witness: the failure at a concrete 65536-byte payload. -/
theorem oversized_payload_write_fails_witness :
    buildAudioPacket (List.replicate 65536 0) =
      Except.error "struct.error: argument out of range" ∧
    writeAudioFrame (some 1) (List.replicate 65536 0) 8000 8000 =
      (false, []) :=
  oversized_payload_write_fails 1 (List.replicate 65536 0) 8000 8000
    (List.replicate 65536 0) (by rw [resample_audio, if_pos rfl])
    (by rw [List.length_replicate]; omega)

/-- C10: implicit precondition of `resample_audio`.  With differing rates
every odd-byte-length input raises (`np.frombuffer` requires the buffer
size to be a multiple of the 2-byte element size), while with equal rates
any input — including odd-length input — is returned unchanged. -/
theorem resample_odd_length_raises (audio : List Nat)
    (from_rate to_rate r : Nat) (hne : from_rate ≠ to_rate)
    (hodd : audio.length % 2 = 1) :
    resample_audio audio from_rate to_rate =
      Except.error
        "ValueError: buffer size must be a multiple of element size" ∧
    resample_audio audio r r = Except.ok audio := by
  constructor
  · simp [resample_audio, hne, hodd]
  · simp [resample_audio]

/-- C10 witness: the odd-length failure and equal-rate identity at `[0]`. -/
theorem resample_odd_length_raises_witness :
    resample_audio [0] 8000 16000 =
      Except.error
        "ValueError: buffer size must be a multiple of element size" ∧
    resample_audio [0] 8000 8000 = Except.ok [0] :=
  resample_odd_length_raises [0] 8000 16000 8000 (by norm_num) (by simp)

end AudioSocket
